import Mathlib

/-!
# Verification of the Actual-to-GSheets sync script core

A shallow embedding of the pure computational core of
`src/actual_to_gsheets.py`: the budget aggregation engine
(`get_budget_data`), the transaction projection's date formatting
(`get_transaction_data`), the account balance projection
(`get_account_balances`) and the totals computed by the sheet renderers
(`update_sheet_tab`, `update_account_balances_sheet`).

Modelling conventions:
* Money is modelled as `ℚ`.  The script uses Python `Decimal` for all
  per-category arithmetic; on the values that occur (integer cents divided
  by 100, added and subtracted) `Decimal` arithmetic is exact, so `ℚ` is a
  faithful model of it.
* Entity records are Lean structures mirroring the fields the script reads.
  The optional `is_parent` attribute is modelled as a `Bool` field that is
  `false` when the attribute is absent, matching
  `getattr(t, 'is_parent', False)`.
* Python's stable `list.sort(key=...)` is modelled by Mathlib's stable
  `List.insertionSort` with the corresponding lexicographic key relation.
* Dates are modelled as `Nat` (the YYYYMMDD integer); only the interval
  test `start <= date <= end` matters to the aggregation engine.
-/

/-- `CategoryGroup` entity: id, name, `is_income`, `hidden`, `tombstone`. -/
structure CategoryGroup where
  id : String
  name : String
  is_income : Bool
  hidden : Bool
  tombstone : Bool
deriving DecidableEq

/-- `Category` entity: id, name, owning group id (`cat_group`), flags. -/
structure Category where
  id : String
  name : String
  cat_group : String
  hidden : Bool
  tombstone : Bool
deriving DecidableEq

/-- `Budget` allocation entity: category id and amount in cents
(`None` modelled as `Option.none`). -/
structure Budget where
  category_id : String
  amount : Option Int
deriving DecidableEq

/-- `Transaction` entity: date (YYYYMMDD integer), signed amount in cents,
optional category id, `is_parent` (absent attribute modelled as `false`)
and `tombstone`. -/
structure Transaction where
  date : Nat
  amount : Int
  category : Option String
  is_parent : Bool
  tombstone : Bool
deriving DecidableEq

/-- `Account` entity: name, current balance in cents (nullable), flags. -/
structure Account where
  name : String
  balance_current : Option Int
  offbudget : Bool
  closed : Bool
  tombstone : Bool
deriving DecidableEq

/-- `cents_to_decimal`: convert integer cents to exact decimal dollars
(`Decimal(cents) / Decimal(100)`). -/
def cents_to_decimal (cents : Int) : ℚ :=
  (cents : ℚ) / 100

/-- Modelled from the spec: the Ledger Source query
`listTransactions(start, end, categoryFilter)` (the external
`actual.queries.get_transactions` library call used by `get_budget_data`),
returning the transactions whose date falls within `[start, end]` and whose
category is the given one. -/
def getTransactions (txns : List Transaction) (start_d end_d : Nat)
    (cid : String) : List Transaction :=
  txns.filter (fun t =>
    start_d ≤ t.date && t.date ≤ end_d && t.category == some cid)

/-- The per-category decimal sum computed at lines 123-126 of
`get_budget_data`: each in-window transaction amount is converted with
`cents_to_decimal` and the decimals are summed, skipping transactions with
`is_parent` set. -/
def transactionSum (txns : List Transaction) (start_d end_d : Nat)
    (cid : String) : ℚ :=
  (((getTransactions txns start_d end_d cid).filter
      (fun t => !t.is_parent)).map (fun t => cents_to_decimal t.amount)).sum

/-- `budget_map.get(category.id)` where `budget_map` is
`{b.category_id: b for b in budgets}`: a Python dict comprehension keeps the
last entry for a duplicated key, hence the lookup on the reversed list. -/
def budgetLookup (budgets : List Budget) (cid : String) : Option Budget :=
  budgets.reverse.find? (fun b => b.category_id == cid)

/-- `budget.amount if budget and budget.amount is not None else 0`. -/
def budgetedCents (budgets : List Budget) (cid : String) : Int :=
  match budgetLookup budgets cid with
  | some b => b.amount.getD 0
  | none => 0

/-- The derived `CategoryReportRow`: the dictionary appended for each
category by `get_budget_data`.  The script stores `float(...)` of each
`Decimal`; the decimal values themselves are modelled (`ℚ`), the float
conversion being display-side. -/
structure CategoryReportRow where
  group : String
  category : String
  budgeted : ℚ
  actual_spend : ℚ
  running_balance : ℚ
  is_income : Bool
deriving DecidableEq

/-- The loop body of `get_budget_data` for one (group, category) pair:
budget lookup, transaction summing, sign normalization and running
balance. -/
def categoryRow (group : CategoryGroup) (budgets : List Budget)
    (txns : List Transaction) (start_d end_d : Nat)
    (category : Category) : CategoryReportRow :=
  let budgeted := cents_to_decimal (budgetedCents budgets category.id)
  let summed := transactionSum txns start_d end_d category.id
  let actual_spend := if group.is_income then summed else -summed
  let running_balance :=
    if group.is_income then actual_spend - budgeted
    else budgeted - actual_spend
  { group := group.name
    category := category.name
    budgeted := budgeted
    actual_spend := actual_spend
    running_balance := running_balance
    is_income := group.is_income }

/-- Key relation for `categories.sort(key=lambda x: x.name or "")`:
category name ascending. -/
def catLE (a b : Category) : Prop := a.name ≤ b.name

instance : DecidableRel catLE := fun a b =>
  inferInstanceAs (Decidable (a.name ≤ b.name))

instance : IsTotal Category catLE := ⟨fun a b => le_total a.name b.name⟩

instance : IsTrans Category catLE :=
  ⟨fun _ _ _ hab hbc => le_trans hab hbc⟩

/-- Key relation for `data.sort(key=lambda x: (x["group"], x["category"]))`:
Python tuple comparison, i.e. lexicographic on (group, category). -/
def rowLE (a b : CategoryReportRow) : Prop :=
  a.group < b.group ∨ (a.group = b.group ∧ a.category ≤ b.category)

instance : DecidableRel rowLE := fun a b =>
  inferInstanceAs
    (Decidable (a.group < b.group ∨ (a.group = b.group ∧ a.category ≤ b.category)))

instance : IsTotal CategoryReportRow rowLE := by
  constructor
  intro a b
  rcases lt_trichotomy a.group b.group with h | h | h
  · exact Or.inl (Or.inl h)
  · rcases le_total a.category b.category with hc | hc
    · exact Or.inl (Or.inr ⟨h, hc⟩)
    · exact Or.inr (Or.inr ⟨h.symm, hc⟩)
  · exact Or.inr (Or.inl h)

instance : IsTrans CategoryReportRow rowLE := by
  constructor
  intro a b c hab hbc
  rcases hab with hab | ⟨hab, hab2⟩
  · rcases hbc with hbc | ⟨hbc, _⟩
    · exact Or.inl (lt_trans hab hbc)
    · exact Or.inl (hbc ▸ hab)
  · rcases hbc with hbc | ⟨hbc, hbc2⟩
    · exact Or.inl (hab ▸ hbc)
    · exact Or.inr ⟨hab.trans hbc, le_trans hab2 hbc2⟩

/-- `get_budget_data` (lines 57-156): drop hidden/tombstoned groups, select
each group's surviving categories, sort them by name, emit one
`CategoryReportRow` per category, and finally sort the whole list by
(group name, category name). -/
def get_budget_data (groups : List CategoryGroup) (budgets : List Budget)
    (all_categories : List Category) (txns : List Transaction)
    (start_d end_d : Nat) : List CategoryReportRow :=
  let data := groups.flatMap (fun group =>
    if group.hidden || group.tombstone then []
    else
      let categories := all_categories.filter (fun cat =>
        cat.cat_group == group.id && !cat.hidden && !cat.tombstone)
      let categories := categories.insertionSort catLE
      categories.map (fun category =>
        categoryRow group budgets txns start_d end_d category))
  data.insertionSort rowLE

/-! ### Sample entities used in concrete instances -/

/-- A non-income (expense) group with no exclusion flags. -/
def sampleExpenseGroup : CategoryGroup :=
  { id := "g1", name := "Groceries", is_income := false, hidden := false,
    tombstone := false }

/-- An income group with no exclusion flags. -/
def sampleIncomeGroup : CategoryGroup :=
  { id := "g2", name := "Income", is_income := true, hidden := false,
    tombstone := false }

/-- A surviving category owned by the expense group. -/
def sampleCategory : Category :=
  { id := "c1", name := "Food", cat_group := "g1", hidden := false,
    tombstone := false }

/-- A surviving category owned by the income group. -/
def sampleIncomeCategory : Category :=
  { id := "c2", name := "Salary", cat_group := "g2", hidden := false,
    tombstone := false }

/-- An in-window expense transaction of -5000 cents on the expense
category. -/
def sampleExpenseTxn : Transaction :=
  { date := 20240110, amount := -5000, category := some "c1",
    is_parent := false, tombstone := false }

/-- An in-window parent (split header) transaction on the expense
category. -/
def sampleParentTxn : Transaction :=
  { date := 20240111, amount := -7777, category := some "c1",
    is_parent := true, tombstone := false }

/-- An in-window income transaction of +1200 cents on the income
category. -/
def sampleIncomeTxn : Transaction :=
  { date := 20240112, amount := 1200, category := some "c2",
    is_parent := false, tombstone := false }

/-- A 1000-cent budget allocation for the income category. -/
def sampleIncomeBudget : Budget := { category_id := "c2", amount := some 1000 }

/-! ### Helper lemmas -/

/-- Inserting a transaction flagged `is_parent` anywhere in the transaction
list leaves the per-category decimal sum unchanged: the summation at lines
123-126 filters such transactions out. -/
theorem transactionSum_insert_parent {t : Transaction}
    (h : t.is_parent = true) (l1 l2 : List Transaction)
    (start_d end_d : Nat) (cid : String) :
    transactionSum (l1 ++ t :: l2) start_d end_d cid =
      transactionSum (l1 ++ l2) start_d end_d cid := by
  by_cases hw :
      (start_d ≤ t.date && t.date ≤ end_d && (t.category == some cid)) = true
  · simp [transactionSum, getTransactions, List.filter_append,
      List.filter_cons, hw, h]
  · simp [transactionSum, getTransactions, List.filter_append,
      List.filter_cons, hw]

/-- Lift of `transactionSum_insert_parent` to a whole report row. -/
theorem categoryRow_insert_parent {t : Transaction} (h : t.is_parent = true)
    (group : CategoryGroup) (budgets : List Budget)
    (l1 l2 : List Transaction) (start_d end_d : Nat) (c : Category) :
    categoryRow group budgets (l1 ++ t :: l2) start_d end_d c =
      categoryRow group budgets (l1 ++ l2) start_d end_d c := by
  simp [categoryRow, transactionSum_insert_parent h]

/-- Every row of `get_budget_data` originates from a group in the input
list with `hidden` and `tombstone` clear and a category in the input list
with `hidden` and `tombstone` clear whose `cat_group` is that group's id,
and it equals `categoryRow` of that pair. -/
theorem get_budget_data_row_origin {groups : List CategoryGroup}
    {budgets : List Budget} {cats : List Category}
    {txns : List Transaction} {start_d end_d : Nat}
    {row : CategoryReportRow}
    (hrow : row ∈ get_budget_data groups budgets cats txns start_d end_d) :
    ∃ g, g ∈ groups ∧ g.hidden = false ∧ g.tombstone = false ∧
      ∃ c, c ∈ cats ∧ c.cat_group = g.id ∧ c.hidden = false ∧
        c.tombstone = false ∧
        row = categoryRow g budgets txns start_d end_d c := by
  simp only [get_budget_data] at hrow
  rw [List.mem_insertionSort, List.mem_flatMap] at hrow
  obtain ⟨g, hg, hrow⟩ := hrow
  by_cases hex : (g.hidden || g.tombstone) = true
  · rw [if_pos hex] at hrow
    simp at hrow
  · rw [if_neg hex] at hrow
    simp only [Bool.or_eq_true, not_or, Bool.not_eq_true] at hex
    rw [List.mem_map] at hrow
    obtain ⟨c, hc, hceq⟩ := hrow
    rw [List.mem_insertionSort, List.mem_filter] at hc
    obtain ⟨hcmem, hcond⟩ := hc
    simp only [Bool.and_eq_true, beq_iff_eq, Bool.not_eq_eq_eq_not,
      Bool.not_true] at hcond
    exact ⟨g, hg, hex.1, hex.2, c, hcmem, hcond.1.1, hcond.1.2, hcond.2,
      hceq.symm⟩

/-! ### Claim theorems -/

/-- C1: for every month window and category, the summed `actual_spend` of
the aggregation engine is unaffected by transactions flagged
`is_parent = true`: inserting such a transaction (of any amount) anywhere
in the transaction list leaves the entire output of `get_budget_data`
unchanged; only non-parent transactions contribute. -/
theorem budget_data_unaffected_by_parent_transactions {t : Transaction}
    (h : t.is_parent = true) (groups : List CategoryGroup)
    (budgets : List Budget) (cats : List Category)
    (l1 l2 : List Transaction) (start_d end_d : Nat) :
    get_budget_data groups budgets cats (l1 ++ t :: l2) start_d end_d =
      get_budget_data groups budgets cats (l1 ++ l2) start_d end_d := by
  simp only [get_budget_data, categoryRow_insert_parent h]

/-- Witness for C1 at a concrete input: a parent split-header transaction
of -7777 cents injected into the sample ledger. -/
theorem budget_data_unaffected_by_parent_transactions_witness :
    sampleParentTxn.is_parent = true ∧
      get_budget_data [sampleExpenseGroup] [] [sampleCategory]
          ([sampleExpenseTxn] ++ sampleParentTxn :: []) 20240101 20240131 =
        get_budget_data [sampleExpenseGroup] [] [sampleCategory]
          ([sampleExpenseTxn] ++ []) 20240101 20240131 :=
  ⟨rfl, budget_data_unaffected_by_parent_transactions rfl
    [sampleExpenseGroup] [] [sampleCategory] [sampleExpenseTxn] []
    20240101 20240131⟩

/-- C2: for every category whose owning group has `is_income` false, the
emitted `actual_spend` is the negation of the decimal sum of the summed
transaction amounts of that very category; for an income-group category no
negation is applied.  The emitted row is tied to its (group, category)
pair: it is `categoryRow` of that pair, its `group`/`category` fields are
that pair's names and the summed id is that category's id.  In particular
the sample expense category with in-window non-parent transactions summing
to -5000 cents yields `actual_spend = 50`. -/
theorem actual_spend_sign_normalization :
    (∀ (groups : List CategoryGroup) (budgets : List Budget)
        (cats : List Category) (txns : List Transaction)
        (start_d end_d : Nat) (row : CategoryReportRow),
      row ∈ get_budget_data groups budgets cats txns start_d end_d →
      ∃ g, g ∈ groups ∧ ∃ c, c ∈ cats ∧ c.cat_group = g.id ∧
        row = categoryRow g budgets txns start_d end_d c ∧
        row.group = g.name ∧ row.category = c.name ∧
        row.is_income = g.is_income ∧
        row.actual_spend =
          (if g.is_income then transactionSum txns start_d end_d c.id
           else -(transactionSum txns start_d end_d c.id))) ∧
    (categoryRow sampleExpenseGroup [] [sampleExpenseTxn] 20240101 20240131
        sampleCategory).actual_spend = 50 := by
  constructor
  · intro groups budgets cats txns start_d end_d row hrow
    obtain ⟨g, hg, _, _, c, hc, hcg, _, _, heq⟩ :=
      get_budget_data_row_origin hrow
    refine ⟨g, hg, c, hc, hcg, heq, ?_, ?_, ?_, ?_⟩ <;> rw [heq] <;>
      simp [categoryRow]
  · simp [categoryRow, transactionSum, getTransactions, cents_to_decimal,
      sampleExpenseGroup, sampleExpenseTxn, sampleCategory]
    norm_num

/-- Witness for C2 at a concrete input: the single emitted row of the
sample expense ledger is tied to the sample group and category and
satisfies the sign-normalization rule. -/
theorem actual_spend_sign_normalization_witness :
    ∃ g, g ∈ [sampleExpenseGroup] ∧ ∃ c, c ∈ [sampleCategory] ∧
      c.cat_group = g.id ∧
      categoryRow sampleExpenseGroup [] [sampleExpenseTxn] 20240101 20240131
          sampleCategory =
        categoryRow g [] [sampleExpenseTxn] 20240101 20240131 c ∧
      (categoryRow sampleExpenseGroup [] [sampleExpenseTxn] 20240101
          20240131 sampleCategory).group = g.name ∧
      (categoryRow sampleExpenseGroup [] [sampleExpenseTxn] 20240101
          20240131 sampleCategory).category = c.name ∧
      (categoryRow sampleExpenseGroup [] [sampleExpenseTxn] 20240101
          20240131 sampleCategory).is_income = g.is_income ∧
      (categoryRow sampleExpenseGroup [] [sampleExpenseTxn] 20240101
          20240131 sampleCategory).actual_spend =
        (if g.is_income then
          transactionSum [sampleExpenseTxn] 20240101 20240131 c.id
         else -(transactionSum [sampleExpenseTxn] 20240101 20240131
          c.id)) :=
  actual_spend_sign_normalization.1 [sampleExpenseGroup] [] [sampleCategory]
    [sampleExpenseTxn] 20240101 20240131 _
    (by simp [get_budget_data, sampleExpenseGroup, sampleCategory])

/-- C3: for every emitted `CategoryReportRow`, `running_balance` equals
`actual_spend - budgeted` when the row's group is an income group and
`budgeted - actual_spend` otherwise, re-derivable exactly from the row's
own fields; the sample income category with a 1000-cent allocation and
+1200 cents of transactions yields `actual_spend = 12` and
`running_balance = 2`. -/
theorem running_balance_rederivable :
    (∀ (groups : List CategoryGroup) (budgets : List Budget)
        (cats : List Category) (txns : List Transaction)
        (start_d end_d : Nat) (row : CategoryReportRow),
      row ∈ get_budget_data groups budgets cats txns start_d end_d →
      row.running_balance =
        (if row.is_income then row.actual_spend - row.budgeted
         else row.budgeted - row.actual_spend)) ∧
    (categoryRow sampleIncomeGroup [sampleIncomeBudget] [sampleIncomeTxn]
        20240101 20240131 sampleIncomeCategory).actual_spend = 12 ∧
    (categoryRow sampleIncomeGroup [sampleIncomeBudget] [sampleIncomeTxn]
        20240101 20240131 sampleIncomeCategory).running_balance = 2 := by
  refine ⟨?_, ?_, ?_⟩
  · intro groups budgets cats txns start_d end_d row hrow
    obtain ⟨g, _, _, _, c, _, _, _, _, heq⟩ :=
      get_budget_data_row_origin hrow
    rw [heq]
    by_cases hgi : g.is_income = true <;> simp [categoryRow, hgi]
  · simp [categoryRow, transactionSum, getTransactions, cents_to_decimal,
      budgetedCents, budgetLookup, sampleIncomeGroup, sampleIncomeTxn,
      sampleIncomeCategory, sampleIncomeBudget]
    norm_num
  · simp [categoryRow, transactionSum, getTransactions, cents_to_decimal,
      budgetedCents, budgetLookup, sampleIncomeGroup, sampleIncomeTxn,
      sampleIncomeCategory, sampleIncomeBudget]
    norm_num

/-- Witness for C3 at a concrete input: the single emitted row of the
sample income ledger satisfies the re-derivation rule. -/
theorem running_balance_rederivable_witness :
    (categoryRow sampleIncomeGroup [sampleIncomeBudget] [sampleIncomeTxn]
        20240101 20240131 sampleIncomeCategory).running_balance =
      (if (categoryRow sampleIncomeGroup [sampleIncomeBudget]
          [sampleIncomeTxn] 20240101 20240131
          sampleIncomeCategory).is_income then
        (categoryRow sampleIncomeGroup [sampleIncomeBudget]
          [sampleIncomeTxn] 20240101 20240131
          sampleIncomeCategory).actual_spend -
        (categoryRow sampleIncomeGroup [sampleIncomeBudget]
          [sampleIncomeTxn] 20240101 20240131
          sampleIncomeCategory).budgeted
       else (categoryRow sampleIncomeGroup [sampleIncomeBudget]
          [sampleIncomeTxn] 20240101 20240131
          sampleIncomeCategory).budgeted -
        (categoryRow sampleIncomeGroup [sampleIncomeBudget]
          [sampleIncomeTxn] 20240101 20240131
          sampleIncomeCategory).actual_spend) :=
  running_balance_rederivable.1 [sampleIncomeGroup] [sampleIncomeBudget]
    [sampleIncomeCategory] [sampleIncomeTxn] 20240101 20240131 _
    (by simp [get_budget_data, sampleIncomeGroup, sampleIncomeCategory])

/-- A surviving category named Bills in the expense group. -/
def catBills : Category :=
  { id := "c3", name := "Bills", cat_group := "g1", hidden := false,
    tombstone := false }

/-- A surviving category named Apples in the expense group. -/
def catApples : Category :=
  { id := "c4", name := "Apples", cat_group := "g1", hidden := false,
    tombstone := false }

/-- A hidden category owned by the expense group. -/
def hiddenCategory : Category :=
  { id := "c9", name := "Secret", cat_group := "g1", hidden := true,
    tombstone := false }

/-- C5: for every input, the final row list of `get_budget_data` is sorted
ascending by the pair (group name, category name); in particular the
categories Bills and Apples supplied in that order in the same group come
out in the order Apples, Bills. -/
theorem budget_rows_sorted :
    (∀ (groups : List CategoryGroup) (budgets : List Budget)
        (cats : List Category) (txns : List Transaction)
        (start_d end_d : Nat),
      List.Sorted rowLE
        (get_budget_data groups budgets cats txns start_d end_d)) ∧
    (get_budget_data [sampleExpenseGroup] [] [catBills, catApples] []
        20240101 20240131).map (fun r => r.category) =
      ["Apples", "Bills"] := by
  constructor
  · intro groups budgets cats txns start_d end_d
    simp only [get_budget_data]
    exact List.sorted_insertionSort rowLE _
  · have hba : ¬ ("Bills" : String) ≤ "Apples" := by
      rw [String.le_iff_toList_le]; decide
    have hab : ("Apples" : String) ≤ "Bills" := by
      rw [String.le_iff_toList_le]; decide
    simp [get_budget_data, categoryRow, catLE, rowLE, sampleExpenseGroup,
      catBills, catApples, hba, hab]

/-- C6: no row is ever emitted for a hidden or tombstoned group, for a
hidden or tombstoned category, or for a category whose owning group is
excluded: every emitted row originates from a surviving (group, category)
pair of the input; and a group all of whose categories are excluded
contributes no rows at all. -/
theorem excluded_entities_emit_no_rows :
    (∀ (groups : List CategoryGroup) (budgets : List Budget)
        (cats : List Category) (txns : List Transaction)
        (start_d end_d : Nat) (row : CategoryReportRow),
      row ∈ get_budget_data groups budgets cats txns start_d end_d →
      ∃ g, g ∈ groups ∧ g.hidden = false ∧ g.tombstone = false ∧
        ∃ c, c ∈ cats ∧ c.cat_group = g.id ∧ c.hidden = false ∧
          c.tombstone = false ∧
          row = categoryRow g budgets txns start_d end_d c) ∧
    (∀ (budgets : List Budget) (txns : List Transaction)
        (start_d end_d : Nat),
      get_budget_data [sampleExpenseGroup] budgets [hiddenCategory] txns
        start_d end_d = []) := by
  constructor
  · intro groups budgets cats txns start_d end_d row hrow
    exact get_budget_data_row_origin hrow
  · intro budgets txns start_d end_d
    simp [get_budget_data, sampleExpenseGroup, hiddenCategory]

/-- Witness for C6 at a concrete input: the single row of the sample
expense ledger originates from the sample group and category. -/
theorem excluded_entities_emit_no_rows_witness :
    ∃ g, g ∈ [sampleExpenseGroup] ∧ g.hidden = false ∧
      g.tombstone = false ∧
      ∃ c, c ∈ [sampleCategory] ∧ c.cat_group = g.id ∧ c.hidden = false ∧
        c.tombstone = false ∧
        categoryRow sampleExpenseGroup [] [sampleExpenseTxn] 20240101
            20240131 sampleCategory =
          categoryRow g [] [sampleExpenseTxn] 20240101 20240131 c :=
  excluded_entities_emit_no_rows.1 [sampleExpenseGroup] [] [sampleCategory]
    [sampleExpenseTxn] 20240101 20240131 _
    (by simp [get_budget_data, sampleExpenseGroup, sampleCategory])

/-- The date reformatting of `get_transaction_data` (lines 207-214):
`str(transaction.date)` is split as `YYYY-MM-DD` when it has exactly 8
characters and passed through unchanged otherwise.  The function is total,
so a malformed date can never abort the run. -/
def format_date (date_str : String) : String :=
  if date_str.length = 8 then
    date_str.take 4 ++ "-" ++ (date_str.drop 4).take 2 ++ "-" ++
      (date_str.drop 6).take 2
  else date_str

/-- `str(transaction.date)` followed by the reformatting above, for a date
stored as an integer. -/
def transaction_date_string (date : Nat) : String :=
  format_date (toString date)

/-- C7: a transaction date whose string form has exactly 8 characters is
reformatted to YYYY-MM-DD (20240115 becomes "2024-01-15"); any date value
whose string form is not exactly 8 characters is passed through
unchanged. -/
theorem date_reformatting :
    (∀ date_str : String, date_str.length ≠ 8 →
      format_date date_str = date_str) ∧
    transaction_date_string 20240115 = "2024-01-15" ∧
    format_date "abc" = "abc" := by
  refine ⟨fun s h => if_neg h, ?_, ?_⟩ <;> decide

/-- Witness for C7 at a concrete input: a 9-character date string passes
through unchanged. -/
theorem date_reformatting_witness :
    ("20240115x" : String).length ≠ 8 ∧
      format_date "20240115x" = "20240115x" :=
  ⟨by decide, date_reformatting.1 "20240115x" (by decide)⟩

/-! ### Account balance projection -/

/-- `"Off Budget" if account.offbudget else "On Budget"` (line 261). -/
def account_type (a : Account) : String :=
  if a.offbudget then "Off Budget" else "On Budget"

/-- `"Closed" if account.closed else "Open"` (line 262). -/
def account_status (a : Account) : String :=
  if a.closed then "Closed" else "Open"

/-- `account.name or "Unknown"`: Python `or` falls through to "Unknown"
when the name is null or empty, the empty string modelling both falsy
cases. -/
def display_account_name (n : String) : String :=
  if n = "" then "Unknown" else n

/-- The derived `AccountReportRow` dictionary of `get_account_balances`. -/
structure AccountRow where
  name : String
  balance : ℚ
  type : String
  status : String
deriving DecidableEq

/-- The loop body of `get_account_balances` for one account. -/
def accountRow (a : Account) : AccountRow :=
  { name := display_account_name a.name
    balance := cents_to_decimal (a.balance_current.getD 0)
    type := account_type a
    status := account_status a }

/-- Key relation for
`data.sort(key=lambda x: (x["type"], x["status"] == "Closed", x["name"]))`:
Python tuple comparison, with the middle component the boolean
`status == "Closed"` (`False < True`, so open sorts before closed). -/
def accLE (x y : AccountRow) : Prop :=
  x.type < y.type ∨ (x.type = y.type ∧
    ((x.status == "Closed") < (y.status == "Closed") ∨
     ((x.status == "Closed") = (y.status == "Closed") ∧ x.name ≤ y.name)))

instance : DecidableRel accLE := fun x y =>
  inferInstanceAs (Decidable (x.type < y.type ∨ (x.type = y.type ∧
    ((x.status == "Closed") < (y.status == "Closed") ∨
     ((x.status == "Closed") = (y.status == "Closed") ∧
      x.name ≤ y.name)))))

/-- `get_account_balances` (lines 234-276): one row per non-tombstoned
account, sorted by (type, closed flag, name). -/
def get_account_balances (accounts : List Account) : List AccountRow :=
  let data := (accounts.filter (fun a => !a.tombstone)).map accountRow
  data.insertionSort accLE

/-- `total_on_budget` of `update_account_balances_sheet` (line 450): sum of
balances over rows with type "On Budget" and status "Open". -/
def total_on_budget (data : List AccountRow) : ℚ :=
  ((data.filter (fun r => r.type == "On Budget" && r.status == "Open")).map
    (fun r => r.balance)).sum

/-- `total_off_budget` (line 451): sum of balances over rows with type
"Off Budget" and status "Open". -/
def total_off_budget (data : List AccountRow) : ℚ :=
  ((data.filter (fun r => r.type == "Off Budget" && r.status == "Open")).map
    (fun r => r.balance)).sum

/-- `total_all` (line 452): sum of balances over rows with status
"Open". -/
def total_all_open (data : List AccountRow) : ℚ :=
  ((data.filter (fun r => r.status == "Open")).map (fun r => r.balance)).sum

/-- An open on-budget account named Checking. -/
def sampleOnBudgetAccount : Account :=
  { name := "Checking", balance_current := some 12345, offbudget := false,
    closed := false, tombstone := false }

/-- An open off-budget account named Savings. -/
def sampleOffBudgetAccount : Account :=
  { name := "Savings", balance_current := some 20000, offbudget := true,
    closed := false, tombstone := false }

/-- A closed on-budget account with balance 500.00. -/
def sampleClosedAccount : Account :=
  { name := "Old Checking", balance_current := some 50000,
    offbudget := false, closed := true, tombstone := false }

/-- C8 (failing input): with one open on-budget account and one open
off-budget account supplied with the on-budget one first, the sort at line
272 orders ascending by the literal type label, and since
"Off Budget" < "On Budget" (code point 'f' < 'n' at index 1) the
off-budget row comes out first, contradicting the comment
"Sort by type (on budget first)" and the claimed On-before-Off order. -/
theorem account_sort_puts_off_budget_first :
    (get_account_balances [sampleOnBudgetAccount, sampleOffBudgetAccount]).map
        (fun r => r.type) = ["Off Budget", "On Budget"] ∧
    ("Off Budget" : String) < "On Budget" := by
  have hlt : ("Off Budget" : String) < "On Budget" := by
    rw [String.lt_iff_toList_lt]; decide
  have hle : ¬ ("On Budget" : String) < "Off Budget" :=
    fun h => absurd hlt (lt_asymm h)
  have hne : ("On Budget" : String) ≠ "Off Budget" := by decide
  refine ⟨?_, hlt⟩
  simp [get_account_balances, accountRow, accLE, account_type,
    account_status, display_account_name, sampleOnBudgetAccount,
    sampleOffBudgetAccount, hlt, hle, hne]

/-- C9: every non-tombstoned account appears as a row regardless of closed
status, while each of the three totals of
`update_account_balances_sheet` sums only rows with status "Open", so a
closed row contributes to none of them. -/
theorem closed_accounts_listed_but_not_summed :
    (∀ (accounts : List Account) (a : Account), a ∈ accounts →
      a.tombstone = false → accountRow a ∈ get_account_balances accounts) ∧
    (∀ (l1 l2 : List AccountRow) (r : AccountRow), r.status = "Closed" →
      total_on_budget (l1 ++ r :: l2) = total_on_budget (l1 ++ l2) ∧
      total_off_budget (l1 ++ r :: l2) = total_off_budget (l1 ++ l2) ∧
      total_all_open (l1 ++ r :: l2) = total_all_open (l1 ++ l2)) := by
  constructor
  · intro accounts a ha ht
    simp only [get_account_balances]
    rw [List.mem_insertionSort]
    exact List.mem_map_of_mem _ (List.mem_filter.2 ⟨ha, by simp [ht]⟩)
  · intro l1 l2 r h
    refine ⟨?_, ?_, ?_⟩ <;>
      simp [total_on_budget, total_off_budget, total_all_open,
        List.filter_append, List.filter_cons, h]

/-- Witness for C9 at a concrete input: the closed on-budget account with
balance 500.00 is listed, and dropping its row from a report changes no
subtotal. -/
theorem closed_accounts_listed_but_not_summed_witness :
    (accountRow sampleClosedAccount ∈
      get_account_balances [sampleOnBudgetAccount, sampleClosedAccount]) ∧
    total_on_budget
        ([accountRow sampleOnBudgetAccount] ++
          accountRow sampleClosedAccount :: []) =
      total_on_budget ([accountRow sampleOnBudgetAccount] ++ []) :=
  ⟨closed_accounts_listed_but_not_summed.1
      [sampleOnBudgetAccount, sampleClosedAccount] sampleClosedAccount
      (by simp) rfl,
   (closed_accounts_listed_but_not_summed.2
      [accountRow sampleOnBudgetAccount] [] (accountRow sampleClosedAccount)
      rfl).1⟩

/-- Head decomposition of the grand total. -/
theorem total_all_open_cons (r : AccountRow) (l : List AccountRow) :
    total_all_open (r :: l) =
      (if r.status == "Open" then r.balance else 0) + total_all_open l := by
  by_cases h : (r.status == "Open") = true <;>
    simp [total_all_open, List.filter_cons, h]

/-- Head decomposition of the on-budget subtotal. -/
theorem total_on_budget_cons (r : AccountRow) (l : List AccountRow) :
    total_on_budget (r :: l) =
      (if r.type == "On Budget" && r.status == "Open" then r.balance
       else 0) + total_on_budget l := by
  by_cases h : (r.type == "On Budget" && r.status == "Open") = true <;>
    simp [total_on_budget, List.filter_cons, h]

/-- Head decomposition of the off-budget subtotal. -/
theorem total_off_budget_cons (r : AccountRow) (l : List AccountRow) :
    total_off_budget (r :: l) =
      (if r.type == "Off Budget" && r.status == "Open" then r.balance
       else 0) + total_off_budget l := by
  by_cases h : (r.type == "Off Budget" && r.status == "Open") = true <;>
    simp [total_off_budget, List.filter_cons, h]

/-- C10: when every row's type is "On Budget" or "Off Budget", the grand
total over open accounts equals the sum of the on-budget and off-budget
subtotals, each open row contributing to exactly one of them. -/
theorem grand_total_splits_by_type :
    ∀ data : List AccountRow,
      (∀ r ∈ data, r.type = "On Budget" ∨ r.type = "Off Budget") →
      total_all_open data = total_on_budget data + total_off_budget data := by
  intro data
  induction data with
  | nil => intro _; simp [total_all_open, total_on_budget, total_off_budget]
  | cons r rest ih =>
    intro h
    have hrest := ih (fun x hx => h x (List.mem_cons_of_mem r hx))
    have hr := h r (List.mem_cons_self r rest)
    rw [total_all_open_cons, total_on_budget_cons, total_off_budget_cons,
      hrest]
    rcases hr with ht | ht <;> by_cases hs : r.status = "Open" <;>
      simp [ht, hs, beq_iff_eq] <;> ring

/-- Witness for C10 at a concrete input: a three-row report with an open
on-budget row, an open off-budget row and a closed on-budget row. -/
theorem grand_total_splits_by_type_witness :
    total_all_open
        [accountRow sampleOnBudgetAccount, accountRow sampleOffBudgetAccount,
          accountRow sampleClosedAccount] =
      total_on_budget
          [accountRow sampleOnBudgetAccount,
            accountRow sampleOffBudgetAccount,
            accountRow sampleClosedAccount] +
        total_off_budget
          [accountRow sampleOnBudgetAccount,
            accountRow sampleOffBudgetAccount,
            accountRow sampleClosedAccount] :=
  grand_total_splits_by_type _ (by
    intro r hr
    simp only [List.mem_cons, List.not_mem_nil, or_false] at hr
    rcases hr with h | h | h <;> subst h <;>
      simp [accountRow, account_type, sampleOnBudgetAccount,
        sampleOffBudgetAccount, sampleClosedAccount])

/-- Supporting fact for the numerical design note: because division of
integer cents by 100 is exact in `ℚ` (as it is in Python `Decimal`),
summing per-transaction conversions — what lines 123-126 actually do —
coincides with converting the cents sum once at the end, so no rounding
compounds either way. -/
theorem transactionSum_eq_single_conversion (txns : List Transaction)
    (start_d end_d : Nat) (cid : String) :
    transactionSum txns start_d end_d cid =
      cents_to_decimal
        (((getTransactions txns start_d end_d cid).filter
            (fun t => !t.is_parent)).map (fun t => t.amount)).sum := by
  unfold transactionSum
  generalize ((getTransactions txns start_d end_d cid).filter
    (fun t => !t.is_parent)) = l
  induction l with
  | nil => simp [cents_to_decimal]
  | cons t rest ih =>
    rw [List.map_cons, List.sum_cons, List.map_cons, List.sum_cons, ih]
    simp only [cents_to_decimal]
    push_cast
    ring
